import Mathlib

/-!
Verification of the ESTBAN / cooperados data pipelines
(`pipeline_estban.py`, `pipeline_cooperados.py`).

The Python sources are shallowly embedded: cells of a raw table are
`Option String` (a missing cell, pandas `NaN`, is `none`), numeric values
are `ℚ`, and every pandas column operation is modelled element-wise.
Python's `str(nan)` is the literal string "nan", which is preserved by the
embedding (`textoCelula`).
-/

/-- Whitespace characters recognised by Python `str.strip` / regex `\s`
(ASCII range). -/
def isPySpace (c : Char) : Bool :=
  c = ' ' || c = '\t' || c = '\n' || c = '\r' || c = '\x0b' || c = '\x0c'

/-- Python `str.strip`: drop leading and trailing whitespace. -/
def stripL (cs : List Char) : List Char :=
  ((cs.dropWhile isPySpace).reverse.dropWhile isPySpace).reverse

/-- Python `str.strip` on a `String`. -/
def stripStr (s : String) : String :=
  String.mk (stripL s.toList)

/-- Python `str.upper` (ASCII letters). -/
def upperStr (s : String) : String :=
  String.mk (s.toList.map Char.toUpper)

/-- Python `"sub" in s` (substring test). -/
def contemSub (agulha : List Char) (palheiro : List Char) : Bool :=
  palheiro.tails.any (fun t => agulha.isPrefixOf t)

-- ======================================================================
-- Numeric Normalizer: `_converter_numerico` (pipeline_estban.py, 589-600)
-- ======================================================================

/-- The cleanup chain of `_converter_numerico`: strip whitespace, remove
every "." (thousands separator), turn "," into "." (decimal comma), drop
every character that is not a digit, "." or "-". -/
def limparNumerico (s : String) : List Char :=
  (((stripL s.toList).filter (fun c => c ≠ '.')).map
      (fun c => if c = ',' then '.' else c)).filter
    (fun c => c.isDigit || c = '.' || c = '-')

/-- Value of a digit string. -/
def natVal (cs : List Char) : ℕ :=
  cs.foldl (fun n c => 10 * n + (c.toNat - 48)) 0

/-- Grammar accepted by `pd.to_numeric` restricted to the alphabet the
cleanup chain can produce (digits, ".", "-"): an optional leading minus
sign, then digits with at most one decimal point and at least one digit.
Anything else coerces to NaN, i.e. `none`. -/
def parseNumCore (cs : List Char) : Option ℚ :=
  let neg : Bool := match cs with
    | '-' :: _ => true
    | _ => false
  let resto : List Char := match cs with
    | '-' :: t => t
    | _ => cs
  if resto.isEmpty then none
  else if !(resto.all (fun c => c.isDigit || c = '.')) then none
  else if resto.count '.' = 0 then
    some ((if neg then (-1 : ℚ) else 1) * (natVal resto : ℚ))
  else if resto.count '.' = 1 then
    let ip := resto.takeWhile (fun c => c ≠ '.')
    let fp := (resto.dropWhile (fun c => c ≠ '.')).tail
    if ip.isEmpty && fp.isEmpty then none
    else some ((if neg then (-1 : ℚ) else 1) *
      ((natVal ip : ℚ) + (natVal fp : ℚ) / (10 : ℚ) ^ fp.length))
  else none

/-- One cell of `_converter_numerico`: cleanup, parse, and `fillna(0.0)`. -/
def converterNumericoCelula (s : String) : ℚ :=
  (parseNumCore (limparNumerico s)).getD 0

/-- `_converter_numerico`: element-wise over the series. -/
def _converter_numerico (serie : List String) : List ℚ :=
  serie.map converterNumericoCelula

-- ======================================================================
-- Date Normalizer: `_formatar_data_base` (pipeline_estban.py, 603-629)
-- ======================================================================

/-- The preprocessing of `_formatar_data_base`:
`str(valor).strip().replace("#", "")`. -/
def limparData (s : String) : List Char :=
  (stripL s.toList).filter (fun c => c ≠ '#')

/-- Regex `^\d{6}$`. -/
def shape6 (v : List Char) : Bool :=
  v.length = 6 && v.all Char.isDigit

/-- Regex `^\d{8}$`. -/
def shape8 (v : List Char) : Bool :=
  v.length = 8 && v.all Char.isDigit

/-- Regex `^\d{4}-\d{2}$`. -/
def shapeAnoMes : List Char → Bool
  | [a, b, c, d, h, e, f] =>
    a.isDigit && b.isDigit && c.isDigit && d.isDigit && h = '-' &&
      e.isDigit && f.isDigit
  | _ => false

/-- Regex `(\d{2})/(\d{2})/(\d{4})` used through `re.match`: an
unanchored-at-the-end prefix match; returns (group 2, group 3) =
(month, year) when it matches. -/
def diaMesAno : List Char → Option (List Char × List Char)
  | d1 :: d2 :: s1 :: m1 :: m2 :: s2 :: y1 :: y2 :: y3 :: y4 :: _ =>
    if d1.isDigit && d2.isDigit && s1 = '/' && m1.isDigit && m2.isDigit &&
        s2 = '/' && y1.isDigit && y2.isDigit && y3.isDigit && y4.isDigit then
      some ([m1, m2], [y1, y2, y3, y4])
    else none
  | _ => none

/-- `_formatar_data_base`: normalise a DATA_BASE text to YYYY-MM-01. -/
def _formatar_data_base (valor : String) : String :=
  let v := limparData valor
  if shape6 v then
    String.mk (v.take 4) ++ "-" ++ String.mk ((v.drop 4).take 2) ++ "-01"
  else if shape8 v then
    String.mk (v.take 4) ++ "-" ++ String.mk ((v.drop 4).take 2) ++ "-01"
  else if shapeAnoMes v then
    String.mk v ++ "-01"
  else
    match diaMesAno v with
    | some (mm, aaaa) => String.mk aaaa ++ "-" ++ String.mk mm ++ "-01"
    | none => String.mk v

-- ======================================================================
-- Indicator Registry (pipeline_estban.py, 103-122)
-- ======================================================================

/-- `VERBETES_INDIVIDUAIS`: indicator code to canonical field name. -/
def VERBETES_INDIVIDUAIS : List (Nat × String) :=
  [(160, "OP_CREDITO_TOTAL"), (161, "EMPRESTIMOS_TITULOS"),
   (162, "FINANCIAMENTOS"), (163, "FIN_RURAIS_AGRICOLA"),
   (167, "FIN_AGROINDUSTRIAIS"), (169, "FIN_IMOBILIARIOS"),
   (171, "OUTRAS_OP_CREDITO"), (174, "PROVISAO_CREDITO"),
   (399, "ATIVO_TOTAL"), (420, "DEP_POUPANCA"), (432, "DEP_PRAZO"),
   (610, "PATRIMONIO_LIQUIDO")]

/-- `VERBETES_DEP_VISTA = list(range(401, 420))`. -/
def VERBETES_DEP_VISTA : List Nat :=
  List.range' 401 19

/-- `TODOS_VERBETES`. -/
def TODOS_VERBETES : List Nat :=
  VERBETES_INDIVIDUAIS.map Prod.fst ++ VERBETES_DEP_VISTA

-- ======================================================================
-- Column Resolver, indicator columns: `identificar_colunas_verbetes`
-- (pipeline_estban.py, 361-382)
-- ======================================================================

/-- Case-insensitive literal prefix match; returns the rest of the input. -/
def prefixoCI : List Char → List Char → Option (List Char)
  | [], cs => some cs
  | _ :: _, [] => none
  | p :: ps, c :: cs => if c.toUpper = p then prefixoCI ps cs else none

/-- Match of regex `VERBETE[_\s]*(\d{3})` (IGNORECASE) anchored at the
start of the input; the 3-digit group as a number. -/
def marcaVerbete (cs : List Char) : Option Nat :=
  match prefixoCI ['V', 'E', 'R', 'B', 'E', 'T', 'E'] cs with
  | none => none
  | some resto =>
    match resto.dropWhile (fun c => c = '_' || isPySpace c) with
    | a :: b :: c :: _ =>
      if a.isDigit && b.isDigit && c.isDigit then
        some ((a.toNat - 48) * 100 + (b.toNat - 48) * 10 + (c.toNat - 48))
      else none
    | _ => none

/-- `re.search` for `VERBETE[_\s]*(\d{3})`: try every start position left
to right. -/
def searchVerbete : List Char → Option Nat
  | [] => none
  | c :: cs =>
    match marcaVerbete (c :: cs) with
    | some n => some n
    | none => searchVerbete cs

/-- One iteration of the loop of `identificar_colunas_verbetes`: on a
match of a registered code, `mapa[num] = col` (dict assignment, so a later
column overwrites an earlier one). -/
def passoVerbete (mapa : Nat → Option String) (col : String) :
    Nat → Option String :=
  match searchVerbete col.toList with
  | some num =>
    if TODOS_VERBETES.contains num then
      fun k => if k = num then some col else mapa k
    else mapa
  | none => mapa

/-- `identificar_colunas_verbetes`, as the lookup function of the dict it
builds. -/
def identificar_colunas_verbetes (colunas : List String) :
    Nat → Option String :=
  colunas.foldl passoVerbete (fun _ => none)

/-- Does this raw column carry the (registered) indicator code `num`?  -/
def colunaDoVerbete (num : Nat) (col : String) : Bool :=
  (searchVerbete col.toList == some num) && TODOS_VERBETES.contains num

-- ======================================================================
-- Column Resolver, identification columns: `identificar_colunas_id`
-- (pipeline_estban.py, 385-439)
-- ======================================================================

/-- Key under which a raw column is entered into `colunas_upper`:
`c.upper().strip().replace("#", "")`. -/
def chaveNormalizada (c : String) : List Char :=
  (stripL (c.toList.map Char.toUpper)).filter (fun ch => ch ≠ '#')

/-- Lookup in the dict comprehension
`{c.upper().strip().replace("#", ""): c for c in colunas}`: for duplicate
normalised names the later column wins. -/
def colunasUpper (colunas : List String) (chave : String) : Option String :=
  colunas.reverse.find? (fun c => chaveNormalizada c = chave.toList)

/-- First candidate name present in `colunas_upper`, and the raw column it
maps to. -/
def primeiroCandidato (colunas : List String) (cands : List String) :
    Option String :=
  cands.findSome? (fun cand => colunasUpper colunas cand)

/-- Result of `identificar_colunas_id`: one optional raw column per
identification field; an absent entry means the key is missing from the
returned dict. -/
structure MapaId where
  data_base : Option String
  uf : Option String
  codmun : Option String
  municipio : Option String
  cnpj : Option String
  nome_instituicao : Option String
deriving DecidableEq, Repr

/-- `identificar_colunas_id`. -/
def identificar_colunas_id (colunas : List String) : MapaId :=
  let db0 := primeiroCandidato colunas
    ["DATA_BASE", "DTBASE", "DT_BASE", "DATA BASE"]
  let db := match db0 with
    | some c => some c
    | none =>
      colunas.find? (fun c =>
        contemSub "DATA".toList (c.toList.map Char.toUpper) &&
          contemSub "BASE".toList (c.toList.map Char.toUpper))
  { data_base := db
    uf := primeiroCandidato colunas ["UF", "ESTADO", "SIGLA_UF"]
    codmun := primeiroCandidato colunas
      ["CODMUN_IBGE", "CODMUN", "COD_MUN", "CODIGO_MUNICIPIO",
       "CODMUN_BCB", "COD_MUN_BCB", "CODMUNIC"]
    municipio := primeiroCandidato colunas
      ["MUNICIPIO", "NOME_MUNICIPIO", "NM_MUNICIPIO", "MUNICÍPIO"]
    cnpj := primeiroCandidato colunas ["CNPJ", "CNPJ_IF", "CNPJ_INSTITUICAO"]
    nome_instituicao := primeiroCandidato colunas
      ["NOME_INSTITUICAO", "INSTITUICAO", "NOME_IF", "NM_INSTITUICAO",
       "NOME INSTITUICAO"] }

-- ======================================================================
-- CNPJ normalisation (estban 500-508, cooperados 278-284)
-- ======================================================================

/-- Python `str.zfill`: pad on the left with zeros up to the width. -/
def zfillL (w : Nat) (cs : List Char) : List Char :=
  List.replicate (w - cs.length) '0' ++ cs

/-- CNPJ cell in `transformar_dataframe` (pipeline_estban.py):
strip, keep digits only (regex `\D` removal), `zfill(8)`, `[:8]`. -/
def normalizarCnpjEstban (s : String) : String :=
  String.mk ((zfillL 8 ((stripL s.toList).filter Char.isDigit)).take 8)

/-- CNPJ cell in `consolidar` (pipeline_cooperados.py): strip, keep digits
only, `zfill(8)` - with no truncation. -/
def normalizarCnpjCooperados (s : String) : String :=
  String.mk (zfillL 8 ((stripL s.toList).filter Char.isDigit))

-- ======================================================================
-- Raw tables and the Record Transformer: `transformar_dataframe`
-- (pipeline_estban.py, 442-586)
-- ======================================================================

/-- A raw table: ordered header and rows; a cell is `none` when the CSV
cell is missing (pandas NaN). -/
structure DF where
  header : List String
  rows : List (List (Option String))
deriving DecidableEq, Repr

/-- pandas `df.empty`: no rows or no columns. -/
def dfVazio (df : DF) : Bool :=
  df.rows.isEmpty || df.header.isEmpty

/-- pandas `df.dropna(how="all", axis=1)`: drop the columns whose cells
are all missing. -/
def dropColsVazias (df : DF) : DF :=
  let manter := (List.range df.header.length).filter
    (fun j => !(df.rows.all (fun r => r.getD j none = none)))
  { header := manter.map (fun j => df.header.getD j "")
    rows := df.rows.map (fun r => manter.map (fun j => r.getD j none)) }

/-- pandas `df.dropna(how="all", axis=0)`: drop the rows whose cells are
all missing. -/
def dropRowsVazias (df : DF) : DF :=
  { header := df.header
    rows := df.rows.filter (fun r => !(r.all (fun c => c = none))) }

/-- The cleanup in `transformar_dataframe`:
`df.dropna(how="all", axis=1).dropna(how="all", axis=0)`. -/
def limparDF (df : DF) : DF :=
  dropRowsVazias (dropColsVazias df)

/-- pandas `df[col]` at one row: the cell under the first header equal to
`col`. -/
def celula (header : List String) (row : List (Option String))
    (col : String) : Option String :=
  match header.findIdx? (fun h => h = col) with
  | some j => row.getD j none
  | none => none

/-- pandas `.astype(str)` on one cell: NaN becomes the string "nan". -/
def textoCelula : Option String → String
  | none => "nan"
  | some s => s

/-- One canonical record. Identification fields other than DATA_BASE are
`none` when their column is absent from the output table; `verbetes` holds
the 12 individually tracked indicator columns in registry order. -/
structure Registro where
  data_base : String
  uf : Option String
  codmun : Option String
  municipio : Option String
  cnpj : Option String
  nome_instituicao : Option String
  verbetes : List (String × ℚ)
  dep_vista_total : ℚ
  idx_provisao_credito : Option ℚ
  penetracao_rural : Option ℚ
  mix_poupanca : Option ℚ
deriving DecidableEq, Repr

/-- numpy/pandas `.round(2)`: half-to-even rounding at the second decimal
place (value times 100 rounded half-even, divided by 100). -/
def arredondaMeioPar (q : ℚ) : ℤ :=
  let f := ⌊q⌋
  if q - f < 1/2 then f
  else if q - f > 1/2 then f + 1
  else if f % 2 = 0 then f else f + 1

/-- Round to 2 decimal places. -/
def round2 (q : ℚ) : ℚ :=
  (arredondaMeioPar (q * 100) : ℚ) / 100

/-- Value of one individually tracked indicator for one row: mapped column
through the Numeric Normalizer, else 0.0. -/
def valorVerbete (header : List String) (mapaV : Nat → Option String)
    (row : List (Option String)) (num : Nat) : ℚ :=
  match mapaV num with
  | some col => converterNumericoCelula (textoCelula (celula header row col))
  | none => 0

/-- One output row of `transformar_dataframe`. -/
def mkRegistro (header : List String) (mId : MapaId)
    (mapaV : Nat → Option String) (periodo : String)
    (row : List (Option String)) : Registro :=
  let texto := fun col => textoCelula (celula header row col)
  let vb := fun num => valorVerbete header mapaV row num
  let op := vb 160
  let provisao := vb 174
  let rural := vb 163
  let poupanca := vb 420
  let prazo := vb 432
  let depVista :=
    ((VERBETES_DEP_VISTA.filterMap mapaV).map
      (fun col => converterNumericoCelula (texto col))).sum
  let captacao := depVista + poupanca + prazo
  { data_base := _formatar_data_base
      (match mId.data_base with
       | some col => stripStr (texto col)
       | none => periodo)
    uf := mId.uf.map (fun col => stripStr (texto col))
    codmun := mId.codmun.map (fun col => stripStr (texto col))
    municipio := mId.municipio.map (fun col => upperStr (stripStr (texto col)))
    cnpj := mId.cnpj.map (fun col => normalizarCnpjEstban (texto col))
    nome_instituicao := mId.nome_instituicao.map (fun col => stripStr (texto col))
    verbetes := VERBETES_INDIVIDUAIS.map (fun p => (p.2, vb p.1))
    dep_vista_total := depVista
    idx_provisao_credito :=
      if op = 0 then none else some (round2 (|provisao| / op * 100))
    penetracao_rural :=
      if op = 0 then none else some (round2 (rural / op * 100))
    mix_poupanca :=
      if captacao = 0 then none else some (round2 (poupanca / captacao * 100)) }

/-- Output column order (`COLUNAS_SAIDA_ID`). -/
def COLUNAS_SAIDA_ID : List String :=
  ["DATA_BASE", "UF", "CODMUN", "MUNICIPIO", "CNPJ", "NOME_INSTITUICAO"]

/-- Output column order (`COLUNAS_SAIDA_VERBETES`). -/
def COLUNAS_SAIDA_VERBETES : List String :=
  ["OP_CREDITO_TOTAL", "EMPRESTIMOS_TITULOS", "FINANCIAMENTOS",
   "FIN_RURAIS_AGRICOLA", "FIN_AGROINDUSTRIAIS", "FIN_IMOBILIARIOS",
   "OUTRAS_OP_CREDITO", "PROVISAO_CREDITO", "ATIVO_TOTAL",
   "DEP_VISTA_TOTAL", "DEP_POUPANCA", "DEP_PRAZO", "PATRIMONIO_LIQUIDO"]

/-- Output column order (`COLUNAS_SAIDA_KPIS`). -/
def COLUNAS_SAIDA_KPIS : List String :=
  ["IDX_PROVISAO_CREDITO", "PENETRACAO_RURAL", "MIX_POUPANCA"]

/-- Membership of a canonical column in `resultado.columns`: DATA_BASE,
the indicator columns and the KPI columns are always assigned; the other
identification columns only when their raw column was resolved. -/
def colPresente (mId : MapaId) (col : String) : Bool :=
  if col = "UF" then mId.uf.isSome
  else if col = "CODMUN" then mId.codmun.isSome
  else if col = "MUNICIPIO" then mId.municipio.isSome
  else if col = "CNPJ" then mId.cnpj.isSome
  else if col = "NOME_INSTITUICAO" then mId.nome_instituicao.isSome
  else true

/-- The dict built by `identificar_colunas_verbetes` is empty: no raw
column carries a registered indicator code. -/
def semVerbetes (colunas : List String) : Bool :=
  TODOS_VERBETES.all (fun num => (identificar_colunas_verbetes colunas num).isNone)

/-- Output of `transformar_dataframe`: the column list (canonical order,
restricted to the assigned columns) and the records. -/
structure Saida where
  colunas : List String
  registros : List Registro
deriving DecidableEq, Repr

/-- `transformar_dataframe` (pipeline_estban.py, 442-586). `none` is the
"unusable" signal. -/
def transformar_dataframe (odf : Option DF) (periodo : String) :
    Option Saida :=
  match odf with
  | none => none
  | some df0 =>
    if dfVazio df0 then none
    else
      let df := limparDF df0
      if dfVazio df then none
      else if semVerbetes df.header then none
      else
        let mId := identificar_colunas_id df.header
        some
          { colunas :=
              (COLUNAS_SAIDA_ID ++ COLUNAS_SAIDA_VERBETES ++ COLUNAS_SAIDA_KPIS).filter
                (colPresente mId)
            registros := df.rows.map
              (mkRegistro df.header mId
                (identificar_colunas_verbetes df.header) periodo) }

-- ======================================================================
-- Record Transformer, column-assignment semantics
--
-- `transformar_dataframe` builds `resultado = pd.DataFrame()` and then
-- assigns columns one by one. While the frame's index is still empty, a
-- scalar assignment (`resultado["DATA_BASE"] = periodo`,
-- `resultado[nome] = 0.0`) creates a 0-row column; the FIRST assignment
-- of a Series re-indexes the frame to the Series' index
-- (pandas `_ensure_valid_index`, GH5632) and fills every previously
-- assigned scalar column with NaN.  The definitions below refine
-- `mkRegistro` with this rule: a wiped numeric column is `none` (NaN) in
-- every row, and a wiped DATA_BASE goes through
-- `.apply(_formatar_data_base)` as the string "nan".
-- ======================================================================

/-- Is some identification column other than DATA_BASE resolved?  Those
columns are always assigned as Series, so any of them establishes the
index right after the DATA_BASE assignment. -/
def idMapeado (mId : MapaId) : Bool :=
  mId.uf.isSome || mId.codmun.isSome || mId.municipio.isSome ||
    mId.cnpj.isSome || mId.nome_instituicao.isSome

/-- The indicator columns whose scalar `0.0` default is assigned while
`resultado` still has an empty index, and which the first Series
assignment therefore wipes to NaN: with a DATA_BASE or other
identification column resolved the index is established before the
indicator loop and nothing is wiped; otherwise exactly the unmapped
prefix of the registry (the codes before the first mapped individual
indicator) is wiped.  (`DEP_VISTA_TOTAL` and later columns are assigned
after at least one Series, since at least one indicator column resolved.) -/
def wipeVerbetes (mId : MapaId) (mapaV : Nat → Option String) : List Nat :=
  if mId.data_base.isSome || idMapeado mId then []
  else (VERBETES_INDIVIDUAIS.map Prod.fst).takeWhile
    (fun num => (mapaV num).isNone)

/-- One canonical record under the column-assignment semantics: an
indicator value is `none` when its column holds NaN (wiped default). -/
structure RegistroReal where
  data_base : String
  uf : Option String
  codmun : Option String
  municipio : Option String
  cnpj : Option String
  nome_instituicao : Option String
  verbetes : List (String × Option ℚ)
  dep_vista_total : ℚ
  idx_provisao_credito : Option ℚ
  penetracao_rural : Option ℚ
  mix_poupanca : Option ℚ
deriving DecidableEq, Repr

/-- Value of one individually tracked indicator column for one row:
NaN (`none`) when the column was wiped, otherwise the value of
`valorVerbete` (mapped column through the Numeric Normalizer, or the
broadcast 0.0 default). -/
def valorVerbeteReal (header : List String) (mId : MapaId)
    (mapaV : Nat → Option String) (row : List (Option String))
    (num : Nat) : Option ℚ :=
  if num ∈ wipeVerbetes mId mapaV then none
  else some (valorVerbete header mapaV row num)

/-- One output row of `transformar_dataframe` under the column-assignment
semantics.  KPI arithmetic propagates NaN (a NaN operand makes the ratio
NaN, which the notna/inf mask then turns into None), and a wiped
DATA_BASE reaches `_formatar_data_base` as `str(nan) = "nan"`. -/
def mkRegistroReal (header : List String) (mId : MapaId)
    (mapaV : Nat → Option String) (_periodo : String)
    (row : List (Option String)) : RegistroReal :=
  let texto := fun col => textoCelula (celula header row col)
  let vb := fun num => valorVerbeteReal header mId mapaV row num
  let op := vb 160
  let provisao := vb 174
  let rural := vb 163
  let poupanca := vb 420
  let prazo := vb 432
  let depVista :=
    ((VERBETES_DEP_VISTA.filterMap mapaV).map
      (fun col => converterNumericoCelula (texto col))).sum
  { data_base :=
      match mId.data_base with
      | some col => _formatar_data_base (stripStr (texto col))
      | none => _formatar_data_base "nan"
    uf := mId.uf.map (fun col => stripStr (texto col))
    codmun := mId.codmun.map (fun col => stripStr (texto col))
    municipio := mId.municipio.map (fun col => upperStr (stripStr (texto col)))
    cnpj := mId.cnpj.map (fun col => normalizarCnpjEstban (texto col))
    nome_instituicao := mId.nome_instituicao.map (fun col => stripStr (texto col))
    verbetes := VERBETES_INDIVIDUAIS.map (fun p => (p.2, vb p.1))
    dep_vista_total := depVista
    idx_provisao_credito :=
      match provisao, op with
      | some pv, some opv =>
        if opv = 0 then none else some (round2 (|pv| / opv * 100))
      | _, _ => none
    penetracao_rural :=
      match rural, op with
      | some rv, some opv =>
        if opv = 0 then none else some (round2 (rv / opv * 100))
      | _, _ => none
    mix_poupanca :=
      match poupanca, prazo with
      | some pp, some pz =>
        if depVista + pp + pz = 0 then none
        else some (round2 (pp / (depVista + pp + pz) * 100))
      | _, _ => none }

/-- Output of the column-assignment semantics. -/
structure SaidaReal where
  colunas : List String
  registros : List RegistroReal
deriving DecidableEq, Repr

/-- `transformar_dataframe` under the column-assignment semantics. -/
def transformar_dataframe_real (odf : Option DF) (periodo : String) :
    Option SaidaReal :=
  match odf with
  | none => none
  | some df0 =>
    if dfVazio df0 then none
    else
      let df := limparDF df0
      if dfVazio df then none
      else if semVerbetes df.header then none
      else
        let mId := identificar_colunas_id df.header
        some
          { colunas :=
              (COLUNAS_SAIDA_ID ++ COLUNAS_SAIDA_VERBETES ++ COLUNAS_SAIDA_KPIS).filter
                (colPresente mId)
            registros := df.rows.map
              (mkRegistroReal df.header mId
                (identificar_colunas_verbetes df.header) periodo) }

-- ======================================================================
-- Consolidator (pipeline_estban.py, 699-720)
-- ======================================================================

/-- Sort-key component for an optional column value: pandas `sort_values`
puts NaN last, and an absent column is NaN after `concat`. -/
def chaveOpt : Option String → WithTop (List Char)
  | none => ⊤
  | some s => (s.toList : WithTop (List Char))

/-- Sort key of `df_final.sort_values(["DATA_BASE", "UF", "MUNICIPIO",
"NOME_INSTITUICAO"])`, as a lexicographic tuple. -/
def chaveRegistro (r : Registro) :
    (List Char) ×ₗ (WithTop (List Char) ×ₗ (WithTop (List Char) ×ₗ WithTop (List Char))) :=
  toLex (r.data_base.toList,
    toLex (chaveOpt r.uf, toLex (chaveOpt r.municipio, chaveOpt r.nome_instituicao)))

/-- Boolean comparison used to sort the consolidated rows. -/
def leChave (a b : Registro) : Bool :=
  decide (chaveRegistro a ≤ chaveRegistro b)

/-- pandas `drop_duplicates` (keep the first of each group of exact
duplicate rows), with the set of rows already seen as accumulator. -/
def dedupPrimeiroAux {α : Type} [DecidableEq α] :
    List α → List α → List α
  | _, [] => []
  | vistos, a :: l =>
    if a ∈ vistos then dedupPrimeiroAux vistos l
    else a :: dedupPrimeiroAux (a :: vistos) l

/-- pandas `drop_duplicates`. -/
def dedupPrimeiro {α : Type} [DecidableEq α] (l : List α) : List α :=
  dedupPrimeiroAux [] l

/-- The columns `sort_values` is asked to sort by. -/
def CHAVES_ORDENACAO : List String :=
  ["DATA_BASE", "UF", "MUNICIPIO", "NOME_INSTITUICAO"]

/-- The consolidation step of `executar_pipeline`.  Failure (`none`,
modelling a non-zero exit) happens in two ways: `sys.exit(1)` when no
table was usable, and an uncaught KeyError from
`sort_values(["DATA_BASE", "UF", "MUNICIPIO", "NOME_INSTITUICAO"])` when
one of those four columns is present in none of the usable tables
(`pd.concat` keeps the union of the tables' columns).  Otherwise:
concatenate, sort by the four keys (an absent column is NaN for the rows
of the tables lacking it, and NaN sorts last) and remove exact duplicate
rows. -/
def consolidar (tabelas : List Saida) : Option (List Registro) :=
  if tabelas.isEmpty then none
  else if CHAVES_ORDENACAO.all
      (fun c => tabelas.any (fun t => decide (c ∈ t.colunas))) then
    some (dedupPrimeiro
      (((tabelas.map Saida.registros).flatten).mergeSort leChave))
  else none

-- ======================================================================
-- Worked example (used by the witnesses)
-- ======================================================================

/-- A one-column, one-row raw table: only indicator 160 is reported. -/
def dfExemplo : DF :=
  { header := ["VERBETE_160_X"], rows := [[some "100"]] }

/-- The canonical record `transformar_dataframe` produces for
`dfExemplo` with period "202301". -/
def registroExemplo : Registro :=
  { data_base := "2023-01-01"
    uf := none
    codmun := none
    municipio := none
    cnpj := none
    nome_instituicao := none
    verbetes :=
      [("OP_CREDITO_TOTAL", 100), ("EMPRESTIMOS_TITULOS", 0),
       ("FINANCIAMENTOS", 0), ("FIN_RURAIS_AGRICOLA", 0),
       ("FIN_AGROINDUSTRIAIS", 0), ("FIN_IMOBILIARIOS", 0),
       ("OUTRAS_OP_CREDITO", 0), ("PROVISAO_CREDITO", 0),
       ("ATIVO_TOTAL", 0), ("DEP_POUPANCA", 0), ("DEP_PRAZO", 0),
       ("PATRIMONIO_LIQUIDO", 0)]
    dep_vista_total := 0
    idx_provisao_credito := some 0
    penetracao_rural := some 0
    mix_poupanca := none }

/-- The full output of `transformar_dataframe` on `dfExemplo`. -/
def saidaExemplo : Saida :=
  { colunas := "DATA_BASE" :: (COLUNAS_SAIDA_VERBETES ++ COLUNAS_SAIDA_KPIS)
    registros := [registroExemplo] }

/-- A record with default contents, input of the consolidation witness. -/
def registroSimples : Registro :=
  { data_base := "2023-01-01"
    uf := none
    codmun := none
    municipio := none
    cnpj := none
    nome_instituicao := none
    verbetes := []
    dep_vista_total := 0
    idx_provisao_credito := none
    penetracao_rural := none
    mix_poupanca := none }

/-- A canonical table carrying all four sort-key columns, input of the
consolidation witness. -/
def saidaCompleta : Saida :=
  { colunas := COLUNAS_SAIDA_ID ++ COLUNAS_SAIDA_VERBETES ++ COLUNAS_SAIDA_KPIS
    registros := [registroSimples] }

/-- The record `dfExemplo` yields under the column-assignment semantics:
DATA_BASE is unmapped, so its scalar period fallback is assigned to the
empty frame and wiped to NaN by the Series assignment of indicator 160;
the rows carry "nan". -/
def registroRealExemplo : RegistroReal :=
  { data_base := "nan"
    uf := none
    codmun := none
    municipio := none
    cnpj := none
    nome_instituicao := none
    verbetes :=
      [("OP_CREDITO_TOTAL", some 100), ("EMPRESTIMOS_TITULOS", some 0),
       ("FINANCIAMENTOS", some 0), ("FIN_RURAIS_AGRICOLA", some 0),
       ("FIN_AGROINDUSTRIAIS", some 0), ("FIN_IMOBILIARIOS", some 0),
       ("OUTRAS_OP_CREDITO", some 0), ("PROVISAO_CREDITO", some 0),
       ("ATIVO_TOTAL", some 0), ("DEP_POUPANCA", some 0),
       ("DEP_PRAZO", some 0), ("PATRIMONIO_LIQUIDO", some 0)]
    dep_vista_total := 0
    idx_provisao_credito := some 0
    penetracao_rural := some 0
    mix_poupanca := none }

/-- The full column-assignment output for `dfExemplo`. -/
def saidaRealExemplo : SaidaReal :=
  { colunas := "DATA_BASE" :: (COLUNAS_SAIDA_VERBETES ++ COLUNAS_SAIDA_KPIS)
    registros := [registroRealExemplo] }

/-- A one-column, one-row raw table reporting only indicator 161: no
identification column resolves, so the scalar defaults assigned before
the first Series (DATA_BASE and the unmapped indicator 160) are wiped. -/
def dfC5 : DF :=
  { header := ["VERBETE_161_Y"], rows := [[some "100"]] }

/-- The record `dfC5` yields under the column-assignment semantics:
OP_CREDITO_TOTAL (unmapped code 160) is NaN - null - in the output, not
the 0.0 its scalar default assignment intended. -/
def registroC5 : RegistroReal :=
  { data_base := "nan"
    uf := none
    codmun := none
    municipio := none
    cnpj := none
    nome_instituicao := none
    verbetes :=
      [("OP_CREDITO_TOTAL", none), ("EMPRESTIMOS_TITULOS", some 100),
       ("FINANCIAMENTOS", some 0), ("FIN_RURAIS_AGRICOLA", some 0),
       ("FIN_AGROINDUSTRIAIS", some 0), ("FIN_IMOBILIARIOS", some 0),
       ("OUTRAS_OP_CREDITO", some 0), ("PROVISAO_CREDITO", some 0),
       ("ATIVO_TOTAL", some 0), ("DEP_POUPANCA", some 0),
       ("DEP_PRAZO", some 0), ("PATRIMONIO_LIQUIDO", some 0)]
    dep_vista_total := 0
    idx_provisao_credito := none
    penetracao_rural := none
    mix_poupanca := none }

/-- The full column-assignment output for `dfC5`. -/
def saidaC5 : SaidaReal :=
  { colunas := "DATA_BASE" :: (COLUNAS_SAIDA_VERBETES ++ COLUNAS_SAIDA_KPIS)
    registros := [registroC5] }

-- ======================================================================
-- Sanity examples (C1/C2/C4 ground facts)
-- ======================================================================

example : searchVerbete "VERBETE_160_OPERACOES_DE_CREDITO".toList = some 160 := by decide
example : converterNumericoCelula "" = 0 := by norm_num [converterNumericoCelula, limparNumerico, stripL, parseNumCore]
example : _formatar_data_base "202301" = "2023-01-01" := by decide
example : _formatar_data_base "01/03/2024" = "2024-03-01" := by decide
example : _formatar_data_base "garbage" = "garbage" := by decide

-- ======================================================================
-- C1: duplicate indicator codes in the header
-- ======================================================================

theorem passoVerbete_eval (m : Nat → Option String) (col : String) (num : Nat) :
    passoVerbete m col num =
      if colunaDoVerbete num col then some col else m num := by
  unfold passoVerbete colunaDoVerbete
  cases h : searchVerbete col.toList with
  | none => simp
  | some n =>
    by_cases hn : n = num
    · subst hn
      by_cases hc : n ∈ TODOS_VERBETES <;> simp [hc]
    · by_cases hc : n ∈ TODOS_VERBETES <;> simp [hc, hn, Ne.symm hn]

theorem foldl_passoVerbete (colunas : List String) :
    ∀ (m : Nat → Option String) (num : Nat),
      colunas.foldl passoVerbete m num =
        (colunas.reverse.find? (colunaDoVerbete num)).or (m num) := by
  induction colunas with
  | nil => intro m num; simp
  | cons c cs ih =>
    intro m num
    simp only [List.foldl_cons, List.reverse_cons, List.find?_append, ih,
      passoVerbete_eval]
    cases hp : colunaDoVerbete num c <;>
      simp [List.find?, hp, Option.or_assoc]

/-- C1 counterexample: with two raw columns carrying code 160, the
resolver maps 160 to the SECOND (last) column, not the first as the claim
states. -/
theorem verbete_duplicado_fica_ultimo :
    identificar_colunas_verbetes ["VERBETE_160_A", "VERBETE_160_B"] 160 =
        some "VERBETE_160_B" ∧
      ("VERBETE_160_B" : String) ≠ "VERBETE_160_A" := by decide

/-- C1 (amended): when the same 3-digit indicator code appears in more
than one column name, `identificar_colunas_verbetes` maps that code to the
LAST matching column in header order (each `mapa[num] = col` dict
assignment overwrites the previous one): the resolved column for a code is
the first matching column of the reversed header. -/
theorem identificar_verbetes_ultima_coluna (colunas : List String) (num : Nat) :
    identificar_colunas_verbetes colunas num =
      colunas.reverse.find? (colunaDoVerbete num) := by
  have h := foldl_passoVerbete colunas (fun _ => none) num
  simpa [identificar_colunas_verbetes] using h

-- ======================================================================
-- C2: totality of the Numeric Normalizer
-- ======================================================================

/-- C2: the Numeric Normalizer is a total function producing exactly one
(finite, since `ℚ` models the value) number per cell, and any cell whose
cleaned text is empty or fails to parse yields exactly zero. -/
theorem converter_numerico_total_e_lixo_zero (serie : List String) :
    (_converter_numerico serie).length = serie.length ∧
    (∀ x ∈ _converter_numerico serie, ∃ s ∈ serie, x = converterNumericoCelula s) ∧
    (∀ s : String,
      limparNumerico s = [] ∨ parseNumCore (limparNumerico s) = none →
        converterNumericoCelula s = 0) := by
  refine ⟨List.length_map _ _, ?_, ?_⟩
  · intro x hx
    rcases List.mem_map.mp hx with ⟨s, hs, rfl⟩
    exact ⟨s, hs, rfl⟩
  · intro s h
    unfold converterNumericoCelula
    rcases h with h | h
    · rw [h]; rfl
    · rw [h]; rfl

/-- C2 witness: the all-letters cell "abc" cleans to the empty string and
is normalised to zero. -/
theorem converter_numerico_lixo_zero_witness :
    converterNumericoCelula "abc" = 0 :=
  (converter_numerico_total_e_lixo_zero ["abc"]).2.2 "abc" (Or.inl (by decide))

-- ======================================================================
-- C4: Date Normalizer shapes
-- ======================================================================

/-- C4 counterexample: an input matching none of the four known shapes is
not returned unchanged - `_formatar_data_base` first strips whitespace and
removes "#" characters, so "#garbage" comes back as "garbage". -/
theorem formatar_data_base_remove_cerquilha :
    _formatar_data_base "#garbage" = "garbage" ∧
      ("garbage" : String) ≠ "#garbage" := by decide

/-- C4 (amended): after stripping surrounding whitespace and removing "#"
(`limparData`), a 6-digit YYYYMM maps to YYYY-MM-01, an 8-digit YYYYMMDD
maps to YYYY-MM-01 discarding the day, YYYY-MM maps to YYYY-MM-01, and a
DD/MM/YYYY PREFIX maps to YYYY-MM-01; otherwise the cleaned (not the
original) text is returned. -/
theorem formatar_data_base_formas (valor : String) :
    (shape6 (limparData valor) = true →
      _formatar_data_base valor =
        String.mk ((limparData valor).take 4) ++ "-" ++
          String.mk (((limparData valor).drop 4).take 2) ++ "-01") ∧
    (shape6 (limparData valor) = false → shape8 (limparData valor) = true →
      _formatar_data_base valor =
        String.mk ((limparData valor).take 4) ++ "-" ++
          String.mk (((limparData valor).drop 4).take 2) ++ "-01") ∧
    (shape6 (limparData valor) = false → shape8 (limparData valor) = false →
      shapeAnoMes (limparData valor) = true →
      _formatar_data_base valor = String.mk (limparData valor) ++ "-01") ∧
    (∀ mm aaaa, shape6 (limparData valor) = false →
      shape8 (limparData valor) = false →
      shapeAnoMes (limparData valor) = false →
      diaMesAno (limparData valor) = some (mm, aaaa) →
      _formatar_data_base valor =
        String.mk aaaa ++ "-" ++ String.mk mm ++ "-01") ∧
    (shape6 (limparData valor) = false → shape8 (limparData valor) = false →
      shapeAnoMes (limparData valor) = false →
      diaMesAno (limparData valor) = none →
      _formatar_data_base valor = String.mk (limparData valor)) := by
  refine ⟨?_, ?_, ?_, ?_, ?_⟩
  · intro h1; simp [_formatar_data_base, h1]
  · intro h1 h2; simp [_formatar_data_base, h1, h2]
  · intro h1 h2 h3; simp [_formatar_data_base, h1, h2, h3]
  · intro mm aaaa h1 h2 h3 h4; simp [_formatar_data_base, h1, h2, h3, h4]
  · intro h1 h2 h3 h4; simp [_formatar_data_base, h1, h2, h3, h4]

/-- C4 witness: the 6-digit period "202301" is normalised to
"2023-01-01". -/
theorem formatar_data_base_formas_witness :
    _formatar_data_base "202301" = "2023-01-01" := by
  have h := (formatar_data_base_formas "202301").1 (by decide)
  exact h.trans (by decide)

-- ======================================================================
-- C7: CNPJ normalisation in the two pipelines
-- ======================================================================

/-- C7 counterexample: in `pipeline_cooperados.py` the CNPJ is zero-padded
but NOT truncated, so a 9-digit raw text keeps its 9 characters, against
the claimed "always exactly 8 characters in both pipelines". -/
theorem cnpj_cooperados_nao_trunca :
    normalizarCnpjCooperados "123456789" = "123456789" ∧
      ("123456789" : String).length ≠ 8 := by decide

/-- C7 (amended): the ESTBAN pipeline normalises a CNPJ cell to
digits-only text left-zero-padded to 8 characters and truncated to the
first 8 digits, so its result always has exactly 8 characters; the
cooperados pipeline only left-zero-pads to at least 8 characters, without
truncating, and the two agree whenever the raw text has at most 8 digits
(e.g. raw "1234" gives "00001234" in both). -/
theorem cnpj_normalizacao (s : String) :
    (normalizarCnpjEstban s).length = 8 ∧
    (normalizarCnpjCooperados s).length =
      max 8 ((stripL s.toList).filter Char.isDigit).length ∧
    (((stripL s.toList).filter Char.isDigit).length ≤ 8 →
      normalizarCnpjCooperados s = normalizarCnpjEstban s) := by
  have hz : ∀ cs : List Char, (zfillL 8 cs).length = max 8 cs.length := by
    intro cs; simp [zfillL]; omega
  refine ⟨?_, ?_, ?_⟩
  · show (String.mk _).length = 8
    simp only [String.length_mk, List.length_take, hz]
    omega
  · show (String.mk _).length = _
    simp [String.length_mk, hz]
  · intro h
    unfold normalizarCnpjCooperados normalizarCnpjEstban
    rw [List.take_of_length_le]
    rw [hz]
    omega

/-- C7 witness: the 4-digit raw text "1234" becomes "00001234" in both
pipelines. -/
theorem cnpj_normalizacao_witness :
    normalizarCnpjCooperados "1234" = "00001234" ∧
      normalizarCnpjEstban "1234" = "00001234" := by
  have h := (cnpj_normalizacao "1234").2.2 (by decide)
  exact ⟨h.trans (by decide), by decide⟩

-- ======================================================================
-- Record Transformer: supporting lemmas
-- ======================================================================

theorem transformar_eq_some (df : DF) (periodo : String) (saida : Saida)
    (h : transformar_dataframe (some df) periodo = some saida) :
    saida.colunas =
      (COLUNAS_SAIDA_ID ++ COLUNAS_SAIDA_VERBETES ++ COLUNAS_SAIDA_KPIS).filter
        (colPresente (identificar_colunas_id (limparDF df).header)) ∧
    saida.registros = (limparDF df).rows.map
      (mkRegistro (limparDF df).header
        (identificar_colunas_id (limparDF df).header)
        (identificar_colunas_verbetes (limparDF df).header) periodo) := by
  simp only [transformar_dataframe] at h
  split_ifs at h
  injection h with h
  subst h
  exact ⟨rfl, rfl⟩

theorem mkRegistro_verbetes (header : List String) (mId : MapaId)
    (mapaV : Nat → Option String) (periodo : String)
    (row : List (Option String)) :
    (mkRegistro header mId mapaV periodo row).verbetes =
      VERBETES_INDIVIDUAIS.map
        (fun p => (p.2, valorVerbete header mapaV row p.1)) := rfl

theorem mkRegistro_dep_vista (header : List String) (mId : MapaId)
    (mapaV : Nat → Option String) (periodo : String)
    (row : List (Option String)) :
    (mkRegistro header mId mapaV periodo row).dep_vista_total =
      ((VERBETES_DEP_VISTA.filterMap mapaV).map
        (fun col => converterNumericoCelula (textoCelula (celula header row col)))).sum := rfl

theorem mkRegistro_idx (header : List String) (mId : MapaId)
    (mapaV : Nat → Option String) (periodo : String)
    (row : List (Option String)) :
    (mkRegistro header mId mapaV periodo row).idx_provisao_credito =
      (if valorVerbete header mapaV row 160 = 0 then none
       else some (round2 (|valorVerbete header mapaV row 174| /
         valorVerbete header mapaV row 160 * 100))) := rfl

theorem mkRegistro_pen (header : List String) (mId : MapaId)
    (mapaV : Nat → Option String) (periodo : String)
    (row : List (Option String)) :
    (mkRegistro header mId mapaV periodo row).penetracao_rural =
      (if valorVerbete header mapaV row 160 = 0 then none
       else some (round2 (valorVerbete header mapaV row 163 /
         valorVerbete header mapaV row 160 * 100))) := rfl

theorem mkRegistro_mix (header : List String) (mId : MapaId)
    (mapaV : Nat → Option String) (periodo : String)
    (row : List (Option String)) :
    (mkRegistro header mId mapaV periodo row).mix_poupanca =
      (if (mkRegistro header mId mapaV periodo row).dep_vista_total +
            valorVerbete header mapaV row 420 + valorVerbete header mapaV row 432 = 0
       then none
       else some (round2 (valorVerbete header mapaV row 420 /
         ((mkRegistro header mId mapaV periodo row).dep_vista_total +
           valorVerbete header mapaV row 420 + valorVerbete header mapaV row 432) * 100))) := rfl

theorem mkRegistro_data_base (header : List String) (mId : MapaId)
    (mapaV : Nat → Option String) (periodo : String)
    (row : List (Option String)) :
    (mkRegistro header mId mapaV periodo row).data_base =
      _formatar_data_base
        (match mId.data_base with
         | some col => stripStr (textoCelula (celula header row col))
         | none => periodo) := rfl

theorem lookup_verbetes_mk (header : List String) (mId : MapaId)
    (mapaV : Nat → Option String) (periodo : String)
    (row : List (Option String)) (num : Nat) (nome : String)
    (hmem : (num, nome) ∈ VERBETES_INDIVIDUAIS) :
    (mkRegistro header mId mapaV periodo row).verbetes.lookup nome =
      some (valorVerbete header mapaV row num) := by
  rw [mkRegistro_verbetes]
  fin_cases hmem <;> rfl

-- ======================================================================
-- C3: KPI fields are finite 2-decimal values or absent
-- ======================================================================

/-- C3: in every record produced by the Record Transformer, each of the
three KPI fields is either absent or a rational with two decimal places
(an integer divided by 100 - in particular finite, never NaN/infinite in
the `ℚ` model); and a zero denominator forces the KPI to be absent. -/
theorem kpis_finitos_ou_ausentes (df : DF) (periodo : String) (saida : Saida)
    (h : transformar_dataframe (some df) periodo = some saida)
    (r : Registro) (hr : r ∈ saida.registros) :
    (r.idx_provisao_credito = none ∨
      ∃ n : ℤ, r.idx_provisao_credito = some ((n : ℚ) / 100)) ∧
    (r.penetracao_rural = none ∨
      ∃ n : ℤ, r.penetracao_rural = some ((n : ℚ) / 100)) ∧
    (r.mix_poupanca = none ∨
      ∃ n : ℤ, r.mix_poupanca = some ((n : ℚ) / 100)) ∧
    ((r.verbetes.lookup "OP_CREDITO_TOTAL").getD 0 = 0 →
      r.idx_provisao_credito = none ∧ r.penetracao_rural = none) ∧
    (r.dep_vista_total + (r.verbetes.lookup "DEP_POUPANCA").getD 0 +
        (r.verbetes.lookup "DEP_PRAZO").getD 0 = 0 →
      r.mix_poupanca = none) := by
  obtain ⟨-, hreg⟩ := transformar_eq_some df periodo saida h
  rw [hreg] at hr
  rcases List.mem_map.mp hr with ⟨row, hrow, rfl⟩
  have hop := lookup_verbetes_mk (limparDF df).header
    (identificar_colunas_id (limparDF df).header)
    (identificar_colunas_verbetes (limparDF df).header) periodo row
    160 "OP_CREDITO_TOTAL" (by decide)
  have hpoup := lookup_verbetes_mk (limparDF df).header
    (identificar_colunas_id (limparDF df).header)
    (identificar_colunas_verbetes (limparDF df).header) periodo row
    420 "DEP_POUPANCA" (by decide)
  have hprazo := lookup_verbetes_mk (limparDF df).header
    (identificar_colunas_id (limparDF df).header)
    (identificar_colunas_verbetes (limparDF df).header) periodo row
    432 "DEP_PRAZO" (by decide)
  refine ⟨?_, ?_, ?_, ?_, ?_⟩
  · rw [mkRegistro_idx]
    split_ifs with h0
    · exact Or.inl rfl
    · exact Or.inr ⟨_, rfl⟩
  · rw [mkRegistro_pen]
    split_ifs with h0
    · exact Or.inl rfl
    · exact Or.inr ⟨_, rfl⟩
  · rw [mkRegistro_mix]
    split_ifs with h0
    · exact Or.inl rfl
    · exact Or.inr ⟨_, rfl⟩
  · intro hz
    rw [hop] at hz
    simp only [Option.getD_some] at hz
    rw [mkRegistro_idx, mkRegistro_pen]
    rw [if_pos hz, if_pos hz]
    exact ⟨rfl, rfl⟩
  · intro hz
    rw [hpoup, hprazo] at hz
    simp only [Option.getD_some] at hz
    rw [mkRegistro_mix, if_pos hz]

-- ======================================================================
-- C6: consolidated demand-deposit range 401-419
-- ======================================================================

theorem soma_filterMap (l : List Nat) (f : Nat → Option String)
    (g : String → ℚ) :
    ((l.filterMap f).map g).sum =
      (l.map (fun n => match f n with | some c => g c | none => 0)).sum := by
  induction l with
  | nil => simp
  | cons a t ih => cases hf : f a <;> simp [List.filterMap_cons, hf, ih]

/-- C6: DEP_VISTA_TOTAL of every output row is the sum over the registered
range 401-419 of the Numeric Normalizer's value of the mapped raw column,
with unmapped codes contributing zero; when no code of the range is
mapped the field is 0. -/
theorem dep_vista_total_soma (df : DF) (periodo : String) (saida : Saida)
    (h : transformar_dataframe (some df) periodo = some saida) :
    saida.registros = (limparDF df).rows.map
      (mkRegistro (limparDF df).header
        (identificar_colunas_id (limparDF df).header)
        (identificar_colunas_verbetes (limparDF df).header) periodo) ∧
    ∀ row : List (Option String),
      (mkRegistro (limparDF df).header
          (identificar_colunas_id (limparDF df).header)
          (identificar_colunas_verbetes (limparDF df).header) periodo
          row).dep_vista_total =
        (VERBETES_DEP_VISTA.map (fun num =>
          match identificar_colunas_verbetes (limparDF df).header num with
          | some col => converterNumericoCelula
              (textoCelula (celula (limparDF df).header row col))
          | none => 0)).sum ∧
      ((∀ num ∈ VERBETES_DEP_VISTA,
          identificar_colunas_verbetes (limparDF df).header num = none) →
        (mkRegistro (limparDF df).header
            (identificar_colunas_id (limparDF df).header)
            (identificar_colunas_verbetes (limparDF df).header) periodo
            row).dep_vista_total = 0) := by
  refine ⟨(transformar_eq_some df periodo saida h).2, ?_⟩
  intro row
  have hsum := soma_filterMap VERBETES_DEP_VISTA
    (identificar_colunas_verbetes (limparDF df).header)
    (fun col => converterNumericoCelula
      (textoCelula (celula (limparDF df).header row col)))
  constructor
  · rw [mkRegistro_dep_vista, hsum]
  · intro hall
    rw [mkRegistro_dep_vista, hsum]
    apply List.sum_eq_zero
    intro x hx
    rcases List.mem_map.mp hx with ⟨num, hnum, rfl⟩
    rw [hall num hnum]

-- ======================================================================
-- C8: consolidation
-- ======================================================================

theorem dedupPrimeiroAux_sublist {α : Type} [DecidableEq α] (l : List α) :
    ∀ vistos : List α, (dedupPrimeiroAux vistos l).Sublist l := by
  induction l with
  | nil => intro vistos; simp [dedupPrimeiroAux]
  | cons a t ih =>
    intro vistos
    simp only [dedupPrimeiroAux]
    split_ifs with h
    · exact (ih vistos).cons a
    · exact (ih (a :: vistos)).cons₂ a

theorem mem_dedupPrimeiroAux {α : Type} [DecidableEq α] (x : α) (l : List α) :
    ∀ vistos : List α,
      (x ∈ dedupPrimeiroAux vistos l ↔ x ∈ l ∧ x ∉ vistos) := by
  induction l with
  | nil => intro vistos; simp [dedupPrimeiroAux]
  | cons a t ih =>
    intro vistos
    simp only [dedupPrimeiroAux]
    split_ifs with h
    · rw [ih]
      simp only [List.mem_cons]
      constructor
      · rintro ⟨ht, hv⟩
        exact ⟨Or.inr ht, hv⟩
      · rintro ⟨ha | ht, hv⟩
        · subst ha; exact absurd h hv
        · exact ⟨ht, hv⟩
    · constructor
      · intro hx
        rcases List.mem_cons.mp hx with rfl | hx2
        · exact ⟨List.mem_cons_self _ _, h⟩
        · rcases (ih (a :: vistos)).mp hx2 with ⟨ht, hv⟩
          exact ⟨List.mem_cons.mpr (Or.inr ht),
            fun hx3 => hv (List.mem_cons.mpr (Or.inr hx3))⟩
      · rintro ⟨hor, hv⟩
        by_cases hxa : x = a
        · exact List.mem_cons.mpr (Or.inl hxa)
        · rcases List.mem_cons.mp hor with h1 | h1
          · exact absurd h1 hxa
          · refine List.mem_cons.mpr
              (Or.inr ((ih (a :: vistos)).mpr ⟨h1, fun hx3 => ?_⟩))
            rcases List.mem_cons.mp hx3 with h2 | h2
            · exact hxa h2
            · exact hv h2

theorem nodup_dedupPrimeiroAux {α : Type} [DecidableEq α] (l : List α) :
    ∀ vistos : List α, (dedupPrimeiroAux vistos l).Nodup := by
  induction l with
  | nil => intro vistos; simp [dedupPrimeiroAux]
  | cons a t ih =>
    intro vistos
    simp only [dedupPrimeiroAux]
    split_ifs with h
    · exact ih vistos
    · refine List.nodup_cons.mpr ⟨?_, ih (a :: vistos)⟩
      intro hmem
      rw [mem_dedupPrimeiroAux] at hmem
      exact hmem.2 (List.mem_cons_self a vistos)

theorem leChave_trans (a b c : Registro) (hab : leChave a b = true)
    (hbc : leChave b c = true) : leChave a c = true := by
  simp only [leChave, decide_eq_true_eq] at hab hbc ⊢
  exact le_trans hab hbc

theorem leChave_total (a b : Registro) :
    (leChave a b || leChave b a) = true := by
  rcases le_total (chaveRegistro a) (chaveRegistro b) with h | h <;>
    simp [leChave, h]

theorem leChave_data_base {a b : Registro} (h : leChave a b = true) :
    a.data_base.toList ≤ b.data_base.toList := by
  simp only [leChave, decide_eq_true_eq] at h
  unfold chaveRegistro at h
  rcases (Prod.Lex.le_iff _ _).mp h with h1 | ⟨h1, -⟩
  · exact le_of_lt h1
  · exact le_of_eq h1

/-- C8 (amended): the Consolidator fails exactly when the sequence of
usable tables is empty (`sys.exit(1)`) or when one of the four sort-key
columns (DATA_BASE, UF, MUNICIPIO, NOME_INSTITUICAO) is present in none
of the usable tables (uncaught KeyError from `sort_values`); otherwise it
yields the concatenation, sorted ascending by those keys, with exact
duplicate rows removed: the result has no duplicates, keeps exactly the
distinct rows of the concatenation, its row count is the sum of the
per-period counts minus the number of duplicates removed, and it is
non-decreasing in the sort key and in particular in DATA_BASE (the
period). -/
theorem consolidacao_falha_e_ordenacao (tabelas : List Saida) :
    (consolidar tabelas = none ↔
      tabelas = [] ∨ ∃ c ∈ CHAVES_ORDENACAO, ∀ t ∈ tabelas, c ∉ t.colunas) ∧
    ∀ out, consolidar tabelas = some out →
      out.Nodup ∧
      out.toFinset = (tabelas.map Saida.registros).flatten.toFinset ∧
      out.length = (tabelas.map Saida.registros).flatten.toFinset.card ∧
      out.length + ((tabelas.map Saida.registros).flatten.length -
          (tabelas.map Saida.registros).flatten.toFinset.card) =
        (tabelas.map (fun t => t.registros.length)).sum ∧
      out.Pairwise (fun a b => chaveRegistro a ≤ chaveRegistro b) ∧
      out.Pairwise (fun a b => a.data_base.toList ≤ b.data_base.toList) := by
  constructor
  · constructor
    · intro h
      by_cases he : tabelas = []
      · exact Or.inl he
      · right
        rw [consolidar, if_neg (by simpa [List.isEmpty_iff] using he)] at h
        by_cases hc : (CHAVES_ORDENACAO.all
            (fun c => tabelas.any (fun t => decide (c ∈ t.colunas)))) = true
        · rw [if_pos hc] at h
          cases h
        · rw [List.all_eq_true] at hc
          push_neg at hc
          obtain ⟨c, hcmem, hcfalse⟩ := hc
          refine ⟨c, hcmem, fun t ht hmem => hcfalse ?_⟩
          exact List.any_eq_true.mpr ⟨t, ht, decide_eq_true hmem⟩
    · rintro (rfl | ⟨c, hcmem, hall⟩)
      · simp [consolidar]
      · rw [consolidar]
        by_cases he : tabelas.isEmpty
        · rw [if_pos he]
        · have hcond : ¬((CHAVES_ORDENACAO.all
              (fun c => tabelas.any (fun t => decide (c ∈ t.colunas)))) = true) := by
            intro hcond
            rcases List.any_eq_true.mp ((List.all_eq_true.mp hcond) c hcmem)
              with ⟨t, ht, hdec⟩
            exact hall t ht (of_decide_eq_true hdec)
          rw [if_neg he, if_neg hcond]
  · intro out hout
    by_cases he : tabelas.isEmpty
    · rw [consolidar, if_pos he] at hout
      exact Option.noConfusion hout
    · rw [consolidar, if_neg he] at hout
      by_cases hc : (CHAVES_ORDENACAO.all
          (fun c => tabelas.any (fun t => decide (c ∈ t.colunas)))) = true
      · rw [if_pos hc] at hout
        injection hout with hout
        subst hout
        have hsub : (dedupPrimeiro
            (((tabelas.map Saida.registros).flatten).mergeSort leChave)).Sublist
            (((tabelas.map Saida.registros).flatten).mergeSort leChave) :=
          dedupPrimeiroAux_sublist _ []
        have hnodup : (dedupPrimeiro
            (((tabelas.map Saida.registros).flatten).mergeSort leChave)).Nodup :=
          nodup_dedupPrimeiroAux _ []
        have hmem : ∀ x, x ∈ dedupPrimeiro
            (((tabelas.map Saida.registros).flatten).mergeSort leChave) ↔
            x ∈ (tabelas.map Saida.registros).flatten := by
          intro x
          rw [dedupPrimeiro, mem_dedupPrimeiroAux]
          simp [List.mem_mergeSort]
        have hfin : (dedupPrimeiro
            (((tabelas.map Saida.registros).flatten).mergeSort leChave)).toFinset =
            (tabelas.map Saida.registros).flatten.toFinset := by
          ext x
          simp only [List.mem_toFinset]
          exact hmem x
        have hsorted : (((tabelas.map Saida.registros).flatten).mergeSort
            leChave).Pairwise (fun a b => leChave a b = true) :=
          List.sorted_mergeSort leChave_trans leChave_total
            (tabelas.map Saida.registros).flatten
        have hpair : (dedupPrimeiro
            (((tabelas.map Saida.registros).flatten).mergeSort leChave)).Pairwise
            (fun a b => leChave a b = true) :=
          hsorted.sublist hsub
        have hlen : (dedupPrimeiro
            (((tabelas.map Saida.registros).flatten).mergeSort leChave)).length =
            (tabelas.map Saida.registros).flatten.toFinset.card := by
          rw [← hfin, List.toFinset_card_of_nodup hnodup]
        refine ⟨hnodup, hfin, hlen, ?_, ?_, ?_⟩
        · have hcard : (tabelas.map Saida.registros).flatten.toFinset.card ≤
              (tabelas.map Saida.registros).flatten.length :=
            List.toFinset_card_le _
          have hflatlen : (tabelas.map Saida.registros).flatten.length =
              (tabelas.map (fun t => t.registros.length)).sum := by
            rw [List.length_flatten, List.map_map]
            rfl
          rw [hlen, ← hflatlen]
          omega
        · exact hpair.imp (fun h => of_decide_eq_true h)
        · exact hpair.imp leChave_data_base
      · rw [if_neg hc] at hout
        exact Option.noConfusion hout

-- ======================================================================
-- C10: the "unusable" signal of the Record Transformer
-- ======================================================================

/-- C10: `transformar_dataframe` returns the unusable signal (`none`)
exactly when the input table is missing, is empty, becomes empty after
dropping the all-empty rows and columns, or resolves no indicator column;
being a total function it raises nothing and produces no rows in those
cases. -/
theorem transformar_sinal_inutilizavel (odf : Option DF) (periodo : String) :
    transformar_dataframe odf periodo = none ↔
      odf = none ∨ ∃ df, odf = some df ∧
        (dfVazio df = true ∨ dfVazio (limparDF df) = true ∨
          semVerbetes (limparDF df).header = true) := by
  cases odf with
  | none => simp [transformar_dataframe]
  | some df =>
    by_cases h1 : dfVazio df
    · simp [transformar_dataframe, h1]
    · by_cases h2 : dfVazio (limparDF df)
      · simp [transformar_dataframe, h1, h2]
      · by_cases h3 : semVerbetes (limparDF df).header
        · simp [transformar_dataframe, h1, h2, h3]
        · simp [transformar_dataframe, h1, h2, h3]

-- ======================================================================
-- Evaluation of the worked example
-- ======================================================================

theorem conv100 : converterNumericoCelula "100" = 100 := by
  have hlim : limparNumerico "100" = ['1', '0', '0'] := by decide
  show (parseNumCore (limparNumerico "100")).getD 0 = 100
  rw [hlim]
  have hp : parseNumCore ['1', '0', '0'] =
      some ((1 : ℚ) * ((100 : ℕ) : ℚ)) := rfl
  rw [hp]
  norm_num

theorem mkRegistro_exemplo :
    mkRegistro ["VERBETE_160_X"] (identificar_colunas_id ["VERBETE_160_X"])
      (identificar_colunas_verbetes ["VERBETE_160_X"]) "202301"
      [some "100"] = registroExemplo := by
  have hid : identificar_colunas_id ["VERBETE_160_X"] =
      { data_base := none, uf := none, codmun := none, municipio := none,
        cnpj := none, nome_instituicao := none } := by decide
  have hv160 : identificar_colunas_verbetes ["VERBETE_160_X"] 160 =
      some "VERBETE_160_X" := by decide
  have hcel : celula ["VERBETE_160_X"] [some "100"] "VERBETE_160_X" =
      some "100" := by decide
  have hnone : ∀ num ∈ ([161, 162, 163, 167, 169, 171, 174, 399, 420, 432,
      610] : List ℕ),
      identificar_colunas_verbetes ["VERBETE_160_X"] num = none := by decide
  have h160 : valorVerbete ["VERBETE_160_X"]
      (identificar_colunas_verbetes ["VERBETE_160_X"]) [some "100"] 160 = 100 := by
    unfold valorVerbete
    rw [hv160]
    show converterNumericoCelula
      (textoCelula (celula ["VERBETE_160_X"] [some "100"] "VERBETE_160_X")) = 100
    rw [hcel]
    exact conv100
  have hzero : ∀ num ∈ ([161, 162, 163, 167, 169, 171, 174, 399, 420, 432,
      610] : List ℕ),
      valorVerbete ["VERBETE_160_X"]
        (identificar_colunas_verbetes ["VERBETE_160_X"]) [some "100"] num = 0 := by
    intro num hnum
    unfold valorVerbete
    rw [hnone num hnum]
  have hdep : VERBETES_DEP_VISTA.filterMap
      (identificar_colunas_verbetes ["VERBETE_160_X"]) = [] := by decide
  rw [hid]
  simp only [mkRegistro, registroExemplo, Registro.mk.injEq]
  refine ⟨?_, ?_, ?_, ?_, ?_, ?_, ?_, ?_, ?_, ?_, ?_⟩
  · decide
  · rfl
  · rfl
  · rfl
  · rfl
  · rfl
  · simp only [VERBETES_INDIVIDUAIS, List.map_cons, List.map_nil, h160,
      hzero 161 (by decide), hzero 162 (by decide), hzero 163 (by decide),
      hzero 167 (by decide), hzero 169 (by decide), hzero 171 (by decide),
      hzero 174 (by decide), hzero 399 (by decide), hzero 420 (by decide),
      hzero 432 (by decide), hzero 610 (by decide)]
  · rw [hdep]
    rfl
  · rw [h160, hzero 174 (by decide)]
    norm_num [round2, arredondaMeioPar]
  · rw [h160, hzero 163 (by decide)]
    norm_num [round2, arredondaMeioPar]
  · rw [hdep, hzero 420 (by decide), hzero 432 (by decide)]
    norm_num

theorem transformar_exemplo :
    transformar_dataframe (some dfExemplo) "202301" = some saidaExemplo := by
  have hlim : limparDF dfExemplo = dfExemplo := by decide
  have hvaz : dfVazio dfExemplo = false := by decide
  have hsem : semVerbetes dfExemplo.header = false := by decide
  have hcols : (COLUNAS_SAIDA_ID ++ COLUNAS_SAIDA_VERBETES ++
      COLUNAS_SAIDA_KPIS).filter
        (colPresente (identificar_colunas_id dfExemplo.header)) =
      "DATA_BASE" :: (COLUNAS_SAIDA_VERBETES ++ COLUNAS_SAIDA_KPIS) := by decide
  simp only [transformar_dataframe, hlim, hvaz, hsem, Bool.false_eq_true,
    if_false, Option.some.injEq]
  simp only [saidaExemplo, Saida.mk.injEq]
  constructor
  · exact hcols
  · show List.map (mkRegistro dfExemplo.header
      (identificar_colunas_id dfExemplo.header)
      (identificar_colunas_verbetes dfExemplo.header) "202301")
        dfExemplo.rows = [registroExemplo]
    show [mkRegistro ["VERBETE_160_X"]
      (identificar_colunas_id ["VERBETE_160_X"])
      (identificar_colunas_verbetes ["VERBETE_160_X"]) "202301"
      [some "100"]] = [registroExemplo]
    rw [mkRegistro_exemplo]

-- ======================================================================
-- Witnesses for the Record Transformer and Consolidator claims
-- ======================================================================

/-- C3 witness: the single record of the worked example has its KPI
properties - in particular `mix_poupanca` is absent because its
denominator is zero, while the other two KPIs are finite 2-decimal
values. -/
theorem kpis_finitos_ou_ausentes_witness :
    (registroExemplo.idx_provisao_credito = none ∨
      ∃ n : ℤ, registroExemplo.idx_provisao_credito = some ((n : ℚ) / 100)) ∧
    (registroExemplo.penetracao_rural = none ∨
      ∃ n : ℤ, registroExemplo.penetracao_rural = some ((n : ℚ) / 100)) ∧
    (registroExemplo.mix_poupanca = none ∨
      ∃ n : ℤ, registroExemplo.mix_poupanca = some ((n : ℚ) / 100)) ∧
    ((registroExemplo.verbetes.lookup "OP_CREDITO_TOTAL").getD 0 = 0 →
      registroExemplo.idx_provisao_credito = none ∧
        registroExemplo.penetracao_rural = none) ∧
    (registroExemplo.dep_vista_total +
        (registroExemplo.verbetes.lookup "DEP_POUPANCA").getD 0 +
        (registroExemplo.verbetes.lookup "DEP_PRAZO").getD 0 = 0 →
      registroExemplo.mix_poupanca = none) :=
  kpis_finitos_ou_ausentes dfExemplo "202301" saidaExemplo transformar_exemplo
    registroExemplo (by simp [saidaExemplo])


-- ======================================================================
-- Evaluation of the column-assignment semantics on the worked examples
-- ======================================================================

theorem mkRegistroReal_exemplo :
    mkRegistroReal ["VERBETE_160_X"] (identificar_colunas_id ["VERBETE_160_X"])
      (identificar_colunas_verbetes ["VERBETE_160_X"]) "202301"
      [some "100"] = registroRealExemplo := by
  have hid : identificar_colunas_id ["VERBETE_160_X"] =
      { data_base := none, uf := none, codmun := none, municipio := none,
        cnpj := none, nome_instituicao := none } := by decide
  have hv160 : identificar_colunas_verbetes ["VERBETE_160_X"] 160 =
      some "VERBETE_160_X" := by decide
  have hcel : celula ["VERBETE_160_X"] [some "100"] "VERBETE_160_X" =
      some "100" := by decide
  have hnone : ∀ num ∈ ([161, 162, 163, 167, 169, 171, 174, 399, 420, 432,
      610] : List ℕ),
      identificar_colunas_verbetes ["VERBETE_160_X"] num = none := by decide
  have hwipe : wipeVerbetes
      { data_base := none, uf := none, codmun := none, municipio := none,
        cnpj := none, nome_instituicao := none }
      (identificar_colunas_verbetes ["VERBETE_160_X"]) = [] := by decide
  have h160 : valorVerbeteReal ["VERBETE_160_X"]
      { data_base := none, uf := none, codmun := none, municipio := none,
        cnpj := none, nome_instituicao := none }
      (identificar_colunas_verbetes ["VERBETE_160_X"]) [some "100"] 160 =
      some 100 := by
    unfold valorVerbeteReal
    rw [hwipe, if_neg (List.not_mem_nil 160)]
    unfold valorVerbete
    rw [hv160]
    show some (converterNumericoCelula
      (textoCelula (celula ["VERBETE_160_X"] [some "100"] "VERBETE_160_X"))) =
      some 100
    rw [hcel]
    show some (converterNumericoCelula "100") = some 100
    rw [conv100]
  have hzero : ∀ num ∈ ([161, 162, 163, 167, 169, 171, 174, 399, 420, 432,
      610] : List ℕ),
      valorVerbeteReal ["VERBETE_160_X"]
        { data_base := none, uf := none, codmun := none, municipio := none,
          cnpj := none, nome_instituicao := none }
        (identificar_colunas_verbetes ["VERBETE_160_X"]) [some "100"] num =
        some 0 := by
    intro num hnum
    unfold valorVerbeteReal
    rw [hwipe, if_neg (List.not_mem_nil num)]
    unfold valorVerbete
    rw [hnone num hnum]
  have hdep : VERBETES_DEP_VISTA.filterMap
      (identificar_colunas_verbetes ["VERBETE_160_X"]) = [] := by decide
  rw [hid]
  simp only [mkRegistroReal, registroRealExemplo, RegistroReal.mk.injEq]
  refine ⟨?_, ?_, ?_, ?_, ?_, ?_, ?_, ?_, ?_, ?_, ?_⟩
  · decide
  · rfl
  · rfl
  · rfl
  · rfl
  · rfl
  · simp only [VERBETES_INDIVIDUAIS, List.map_cons, List.map_nil, h160,
      hzero 161 (by decide), hzero 162 (by decide), hzero 163 (by decide),
      hzero 167 (by decide), hzero 169 (by decide), hzero 171 (by decide),
      hzero 174 (by decide), hzero 399 (by decide), hzero 420 (by decide),
      hzero 432 (by decide), hzero 610 (by decide)]
  · rw [hdep]
    rfl
  · rw [h160, hzero 174 (by decide)]
    norm_num [round2, arredondaMeioPar]
  · rw [h160, hzero 163 (by decide)]
    norm_num [round2, arredondaMeioPar]
  · rw [hdep, hzero 420 (by decide), hzero 432 (by decide)]
    norm_num

theorem transformar_real_exemplo :
    transformar_dataframe_real (some dfExemplo) "202301" =
      some saidaRealExemplo := by
  have hlim : limparDF dfExemplo = dfExemplo := by decide
  have hvaz : dfVazio dfExemplo = false := by decide
  have hsem : semVerbetes dfExemplo.header = false := by decide
  have hcols : (COLUNAS_SAIDA_ID ++ COLUNAS_SAIDA_VERBETES ++
      COLUNAS_SAIDA_KPIS).filter
        (colPresente (identificar_colunas_id dfExemplo.header)) =
      "DATA_BASE" :: (COLUNAS_SAIDA_VERBETES ++ COLUNAS_SAIDA_KPIS) := by decide
  simp only [transformar_dataframe_real, hlim, hvaz, hsem, Bool.false_eq_true,
    if_false, Option.some.injEq]
  simp only [saidaRealExemplo, SaidaReal.mk.injEq]
  constructor
  · exact hcols
  · show List.map (mkRegistroReal dfExemplo.header
      (identificar_colunas_id dfExemplo.header)
      (identificar_colunas_verbetes dfExemplo.header) "202301")
        dfExemplo.rows = [registroRealExemplo]
    show [mkRegistroReal ["VERBETE_160_X"]
      (identificar_colunas_id ["VERBETE_160_X"])
      (identificar_colunas_verbetes ["VERBETE_160_X"]) "202301"
      [some "100"]] = [registroRealExemplo]
    rw [mkRegistroReal_exemplo]

theorem mkRegistroReal_c5 :
    mkRegistroReal ["VERBETE_161_Y"] (identificar_colunas_id ["VERBETE_161_Y"])
      (identificar_colunas_verbetes ["VERBETE_161_Y"]) "202301"
      [some "100"] = registroC5 := by
  have hid : identificar_colunas_id ["VERBETE_161_Y"] =
      { data_base := none, uf := none, codmun := none, municipio := none,
        cnpj := none, nome_instituicao := none } := by decide
  have hv161 : identificar_colunas_verbetes ["VERBETE_161_Y"] 161 =
      some "VERBETE_161_Y" := by decide
  have hcel : celula ["VERBETE_161_Y"] [some "100"] "VERBETE_161_Y" =
      some "100" := by decide
  have hwipe : wipeVerbetes
      { data_base := none, uf := none, codmun := none, municipio := none,
        cnpj := none, nome_instituicao := none }
      (identificar_colunas_verbetes ["VERBETE_161_Y"]) = [160] := by decide
  have h160 : valorVerbeteReal ["VERBETE_161_Y"]
      { data_base := none, uf := none, codmun := none, municipio := none,
        cnpj := none, nome_instituicao := none }
      (identificar_colunas_verbetes ["VERBETE_161_Y"]) [some "100"] 160 =
      none := by
    unfold valorVerbeteReal
    rw [hwipe, if_pos (by decide)]
  have h161 : valorVerbeteReal ["VERBETE_161_Y"]
      { data_base := none, uf := none, codmun := none, municipio := none,
        cnpj := none, nome_instituicao := none }
      (identificar_colunas_verbetes ["VERBETE_161_Y"]) [some "100"] 161 =
      some 100 := by
    unfold valorVerbeteReal
    rw [hwipe, if_neg (by decide)]
    unfold valorVerbete
    rw [hv161]
    show some (converterNumericoCelula
      (textoCelula (celula ["VERBETE_161_Y"] [some "100"] "VERBETE_161_Y"))) =
      some 100
    rw [hcel]
    show some (converterNumericoCelula "100") = some 100
    rw [conv100]
  have hnone : ∀ num ∈ ([162, 163, 167, 169, 171, 174, 399, 420, 432,
      610] : List ℕ),
      identificar_colunas_verbetes ["VERBETE_161_Y"] num = none := by decide
  have hfora : ∀ num ∈ ([162, 163, 167, 169, 171, 174, 399, 420, 432,
      610] : List ℕ), ¬(num ∈ ([160] : List ℕ)) := by decide
  have hzero : ∀ num ∈ ([162, 163, 167, 169, 171, 174, 399, 420, 432,
      610] : List ℕ),
      valorVerbeteReal ["VERBETE_161_Y"]
        { data_base := none, uf := none, codmun := none, municipio := none,
          cnpj := none, nome_instituicao := none }
        (identificar_colunas_verbetes ["VERBETE_161_Y"]) [some "100"] num =
        some 0 := by
    intro num hnum
    unfold valorVerbeteReal
    rw [hwipe, if_neg (hfora num hnum)]
    unfold valorVerbete
    rw [hnone num hnum]
  have hdep : VERBETES_DEP_VISTA.filterMap
      (identificar_colunas_verbetes ["VERBETE_161_Y"]) = [] := by decide
  rw [hid]
  simp only [mkRegistroReal, registroC5, RegistroReal.mk.injEq]
  refine ⟨?_, ?_, ?_, ?_, ?_, ?_, ?_, ?_, ?_, ?_, ?_⟩
  · decide
  · rfl
  · rfl
  · rfl
  · rfl
  · rfl
  · simp only [VERBETES_INDIVIDUAIS, List.map_cons, List.map_nil, h160, h161,
      hzero 162 (by decide), hzero 163 (by decide), hzero 167 (by decide),
      hzero 169 (by decide), hzero 171 (by decide), hzero 174 (by decide),
      hzero 399 (by decide), hzero 420 (by decide), hzero 432 (by decide),
      hzero 610 (by decide)]
  · rw [hdep]
    rfl
  · rw [hzero 174 (by decide), h160]
  · rw [hzero 163 (by decide), h160]
  · rw [hdep, hzero 420 (by decide), hzero 432 (by decide)]
    norm_num

theorem transformar_real_c5 :
    transformar_dataframe_real (some dfC5) "202301" = some saidaC5 := by
  have hlim : limparDF dfC5 = dfC5 := by decide
  have hvaz : dfVazio dfC5 = false := by decide
  have hsem : semVerbetes dfC5.header = false := by decide
  have hcols : (COLUNAS_SAIDA_ID ++ COLUNAS_SAIDA_VERBETES ++
      COLUNAS_SAIDA_KPIS).filter
        (colPresente (identificar_colunas_id dfC5.header)) =
      "DATA_BASE" :: (COLUNAS_SAIDA_VERBETES ++ COLUNAS_SAIDA_KPIS) := by decide
  simp only [transformar_dataframe_real, hlim, hvaz, hsem, Bool.false_eq_true,
    if_false, Option.some.injEq]
  simp only [saidaC5, SaidaReal.mk.injEq]
  constructor
  · exact hcols
  · show List.map (mkRegistroReal dfC5.header
      (identificar_colunas_id dfC5.header)
      (identificar_colunas_verbetes dfC5.header) "202301")
        dfC5.rows = [registroC5]
    show [mkRegistroReal ["VERBETE_161_Y"]
      (identificar_colunas_id ["VERBETE_161_Y"])
      (identificar_colunas_verbetes ["VERBETE_161_Y"]) "202301"
      [some "100"]] = [registroC5]
    rw [mkRegistroReal_c5]

-- ======================================================================
-- C9 and C5: the wiped scalar defaults, at the failing inputs
-- ======================================================================

/-- C9: the claimed DATA_BASE period fallback never reaches an output
row.  On `dfExemplo` (a table with no DATA_BASE column) the
column-assignment semantics yields "nan" in the produced record - the
scalar `periodo` was assigned to the still-empty frame and wiped to NaN
by the Series assignment of indicator 160 - while the claim (and the
source comment "Usa o período do arquivo como fallback") expects the
period, i.e. the date-normalised "202301". -/
theorem fallback_data_base_vira_nan :
    transformar_dataframe_real (some dfExemplo) "202301" =
        some saidaRealExemplo ∧
    (identificar_colunas_id dfExemplo.header).data_base = none ∧
    registroRealExemplo.data_base = "nan" ∧
    ("nan" : String) ≠ _formatar_data_base "202301" ∧
    ("nan" : String) ≠ "202301" :=
  ⟨transformar_real_exemplo, by decide, rfl, by decide, by decide⟩

/-- C5: an unmapped individually tracked indicator is not always 0.0.  On
`dfC5` no identification column resolves, so the 0.0 scalar default of
OP_CREDITO_TOTAL (code 160, unmapped) is assigned to the still-empty
frame and wiped to NaN by the Series assignment of indicator 161: the
output field is null in every row, not the claimed "exactly 0.0 (never
null)". -/
theorem verbete_nao_mapeado_vira_nulo :
    transformar_dataframe_real (some dfC5) "202301" = some saidaC5 ∧
    identificar_colunas_verbetes dfC5.header 160 = none ∧
    registroC5.verbetes.lookup "OP_CREDITO_TOTAL" = some none ∧
    some (none : Option ℚ) ≠ some (some (0 : ℚ)) :=
  ⟨transformar_real_c5, by decide, rfl, by simp⟩

-- ======================================================================
-- C8: counterexample and witness
-- ======================================================================

/-- C8 counterexample: a non-empty sequence of canonical tables on which
the pipeline still fails - no table of the sequence carries a UF column,
so `sort_values` raises an uncaught KeyError (non-zero exit), refuting
"fails only when the input sequence of usable tables is entirely
empty". -/
theorem consolidacao_falha_sem_coluna_chave :
    consolidar [saidaExemplo] = none ∧
    ([saidaExemplo] : List Saida) ≠ [] ∧
    "UF" ∈ CHAVES_ORDENACAO ∧
    ∀ t ∈ ([saidaExemplo] : List Saida), "UF" ∉ t.colunas := by
  refine ⟨by decide, by simp, by decide, by decide⟩

/-- C8 witness: one usable table carrying all four sort-key columns
consolidates successfully into its single row, with all the stated
properties. -/
theorem consolidacao_falha_e_ordenacao_witness :
    ([registroSimples] : List Registro).Nodup ∧
    ([registroSimples] : List Registro).toFinset =
      (([saidaCompleta] : List Saida).map Saida.registros).flatten.toFinset ∧
    ([registroSimples] : List Registro).length =
      (([saidaCompleta] : List Saida).map Saida.registros).flatten.toFinset.card ∧
    ([registroSimples] : List Registro).length +
        ((([saidaCompleta] : List Saida).map Saida.registros).flatten.length -
          (([saidaCompleta] : List Saida).map
            Saida.registros).flatten.toFinset.card) =
      (([saidaCompleta] : List Saida).map (fun t => t.registros.length)).sum ∧
    ([registroSimples] : List Registro).Pairwise
      (fun a b => chaveRegistro a ≤ chaveRegistro b) ∧
    ([registroSimples] : List Registro).Pairwise
      (fun a b => a.data_base.toList ≤ b.data_base.toList) :=
  (consolidacao_falha_e_ordenacao [saidaCompleta]).2 [registroSimples]
    (by
      have hms : ([registroSimples] : List Registro).mergeSort leChave =
          [registroSimples] :=
        List.perm_singleton.mp (List.mergeSort_perm [registroSimples] leChave)
      rw [consolidar, if_neg (by decide), if_pos (by decide)]
      show some (dedupPrimeiro
        (([registroSimples] : List Registro).mergeSort leChave)) =
        some [registroSimples]
      rw [hms]
      rfl)

/-- C6 witness: no code of the range 401-419 is mapped in the worked
example, so DEP_VISTA_TOTAL is 0. -/
theorem dep_vista_total_soma_witness :
    (mkRegistro (limparDF dfExemplo).header
        (identificar_colunas_id (limparDF dfExemplo).header)
        (identificar_colunas_verbetes (limparDF dfExemplo).header) "202301"
        [some "100"]).dep_vista_total = 0 :=
  ((dep_vista_total_soma dfExemplo "202301" saidaExemplo
      transformar_exemplo).2 [some "100"]).2 (by decide)
